import Mathlib

/-!
Shallow embedding of the MCP Lambda dispatcher of `aws-lambda-mcp-cookbook`
(`service/mcp_lambda_handler/`): the tool registry / schema builder, the
argument validator/converter, and the HTTP request dispatcher, together with
theorems settling the specification claims about them.

Python runtime values are modelled by the inductive `PyVal`; Python `float`
payloads are idealized as rationals (no claim depends on binary64 rounding).
Machine-level behaviours of Python builtins (`int()`, `float()`, `str()`,
truthiness) are modelled by explicit functions marked as such.
-/

namespace MCPCookbook

/-- The four primitive parameter types the converter special-cases
(`str`, `int`, `float`, `bool` in `_convert_arg_value`). -/
inductive PrimType where
  | int
  | float
  | bool
  | str
deriving DecidableEq

/-- Model of a Python runtime value as it appears in JSON-RPC params and
tool arguments. Python floats are idealized as rationals. `enumv` models an
Enum member by its string value (the sample tools use string-valued enums). -/
inductive PyVal where
  | none
  | bool (b : Bool)
  | int (n : Int)
  | float (q : Rat)
  | str (s : String)
  | list (xs : List PyVal)
  | dict (kvs : List (String × PyVal))
  | enumv (value : String)

/-- Model of a Python type annotation as classified by `get_origin`/`get_args`
in `_convert_arg_value` and `get_type_schema`. -/
inductive TypeHint where
  | prim (p : PrimType)
  | enum (members : List (String × String))
  | noneType
  | union (args : List TypeHint)
  | listOf (t : TypeHint)
  | listAny
  | dictOf (k v : TypeHint)
  | dictAny
  | unknown

/-- Model of `isinstance(v, t)` for the four primitive types; a Python `bool`
is a subclass of `int`. -/
def isinst : PyVal → PrimType → Bool
  | .bool _, .bool => true
  | .bool _, .int => true
  | .int _, .int => true
  | .float _, .float => true
  | .str _, .str => true
  | _, _ => false

/-- Model of Python truthiness (`bool(v)`) on embedded values. -/
def pyTruthy : PyVal → Bool
  | .none => false
  | .bool b => b
  | .int n => n ≠ 0
  | .float q => q ≠ 0
  | .str s => s ≠ ""
  | .list xs => ¬ xs.isEmpty
  | .dict kvs => ¬ kvs.isEmpty
  | .enumv _ => true

/-- Model of `type(v).__name__` for embedded values. -/
def pyTypeName : PyVal → String
  | .none => "NoneType"
  | .bool _ => "bool"
  | .int _ => "int"
  | .float _ => "float"
  | .str _ => "str"
  | .list _ => "list"
  | .dict _ => "dict"
  | .enumv _ => "Enum"

/-- Digits-only string to a natural number; `none` if empty or non-digit. -/
def digitsToNat : List Char → Option Nat
  | [] => Option.none
  | cs =>
    if cs.all Char.isDigit then
      Option.some (cs.foldl (fun acc c => acc * 10 + (c.toNat - 48)) 0)
    else Option.none

/-- Model of Python `int(s)` on a string: optional surrounding whitespace,
optional sign, decimal digits. -/
def pyIntOfStr (s : String) : Option Int :=
  match (s.trim).data with
  | [] => Option.none
  | c :: rest =>
    if c = '-' then (digitsToNat rest).map (fun n => -(n : Int))
    else if c = '+' then (digitsToNat rest).map (fun n => (n : Int))
    else (digitsToNat (c :: rest)).map (fun n => (n : Int))

/-- Value of a fractional digit list, e.g. `[1,5]` ↦ `0.15`. -/
def fracToRat (ds : List Char) : Rat :=
  ds.foldr (fun c acc => (acc + ((c.toNat - 48 : Nat) : Rat)) / 10) 0

/-- Model of Python `float(s)` on a string: optional sign, decimal digits with
an optional fractional part (exponent and special forms are out of model). -/
def pyFloatOfStr (s : String) : Option Rat :=
  let t := (s.trim).data
  let signBody : Bool × List Char :=
    match t with
    | '-' :: rest => (true, rest)
    | '+' :: rest => (false, rest)
    | l => (false, l)
  let neg := signBody.1
  let ip := signBody.2.takeWhile Char.isDigit
  let rest := signBody.2.dropWhile Char.isDigit
  let mk (q : Rat) : Rat := if neg then -q else q
  match rest with
  | [] =>
    match digitsToNat ip with
    | Option.some n => Option.some (mk (n : Rat))
    | Option.none => Option.none
  | '.' :: fp =>
    if fp.all Char.isDigit ∧ (¬ ip.isEmpty ∨ ¬ fp.isEmpty) then
      Option.some (mk (((digitsToNat ip).getD 0 : Nat) + fracToRat fp))
    else Option.none
  | _ => Option.none

/-- Truncation of a rational toward zero, the model of Python `int(float)`. -/
def ratTrunc (q : Rat) : Int :=
  if q.num ≥ 0 then ((q.num.toNat / q.den : Nat) : Int)
  else -(((-q.num).toNat / q.den : Nat) : Int)

/-- Model of Python `str(v)`; only the cases the dispatcher relies on are
rendered faithfully (no claim depends on list/dict/float rendering). -/
def pyStr : PyVal → String
  | .none => "None"
  | .bool Bool.true => "True"
  | .bool Bool.false => "False"
  | .int n => toString n
  | .float q => reprStr q
  | .str s => s
  | .list _ => "<list>"
  | .dict _ => "<dict>"
  | .enumv v => v

/-- Model of the Python builtin call `int(v)`; errors carry the message text
of the exception (`str(e)`). -/
def pyIntCall : PyVal → Except String Int
  | .int n => .ok n
  | .bool b => .ok (if b then 1 else 0)
  | .float q => .ok (ratTrunc q)
  | .str s =>
    match pyIntOfStr s with
    | Option.some n => .ok n
    | Option.none => .error ("invalid literal for int() with base 10: \x27" ++ s ++ "\x27")
  | v => .error ("int() argument must be a string, a bytes-like object or a real number, not \x27" ++ pyTypeName v ++ "\x27")

/-- Model of the Python builtin call `float(v)`. -/
def pyFloatCall : PyVal → Except String Rat
  | .float q => .ok q
  | .int n => .ok (n : Rat)
  | .bool b => .ok (if b then 1 else 0)
  | .str s =>
    match pyFloatOfStr s with
    | Option.some q => .ok q
    | Option.none => .error ("could not convert string to float: \x27" ++ s ++ "\x27")
  | v => .error ("float() argument must be a string or a real number, not \x27" ++ pyTypeName v ++ "\x27")

/-- A failed primitive/enum conversion: the message and the friendly expected
type, the pair returned as an error tuple by `_convert_primitive_value` and
`_convert_enum_value`. -/
structure ConvErr where
  message : String
  expected : String

/-- Model of `primitive_type(arg_value)`: dispatch of the constructor-style
conversion to the builtin for each of the four primitive types. `bool()` and
`str()` never fail. -/
def pyPrimCall (p : PrimType) (v : PyVal) : Except String PyVal :=
  match p with
  | .int =>
    match pyIntCall v with
    | .ok n => .ok (.int n)
    | .error e => .error e
  | .float =>
    match pyFloatCall v with
    | .ok q => .ok (.float q)
    | .error e => .error e
  | .bool => .ok (.bool (pyTruthy v))
  | .str => .ok (.str (pyStr v))

/-- The `__name__` of each primitive type, used in error tuples. -/
def primName : PrimType → String
  | .int => "int"
  | .float => "float"
  | .bool => "bool"
  | .str => "str"

/-- Model of Python `str.lower()` as a character map (the dispatcher only
compares the result against ASCII literals). -/
def pyLower (s : String) : String := String.mk (s.data.map Char.toLower)

/-- Embedding of `MCPLambdaHandler._convert_primitive_value`: string-to-bool
recognizes fixed case-insensitive literal sets, every other conversion is a
constructor-style call whose failure text is surfaced. -/
def convertPrimitiveValue (v : PyVal) (p : PrimType) : Except ConvErr PyVal :=
  match p, v with
  | .bool, .str s =>
    let l := pyLower s
    if l = "true" ∨ l = "yes" ∨ l = "1" ∨ l = "on" then .ok (.bool true)
    else if l = "false" ∨ l = "no" ∨ l = "0" ∨ l = "off" then .ok (.bool false)
    else .error ⟨"Cannot convert \x27" ++ s ++ "\x27 to boolean", "boolean"⟩
  | q, w =>
    match pyPrimCall q w with
    | .ok r => .ok r
    | .error msg => .error ⟨msg, primName q⟩

/-- Embedding of `MCPLambdaHandler._convert_enum_value`: direct value lookup,
then case-insensitive member-name lookup, else an error naming the accepted
values. -/
def convertEnumValue (v : PyVal) (ms : List (String × String)) : Except ConvErr PyVal :=
  let expected := "enum [" ++ String.intercalate ", " (ms.map (·.2)) ++ "]"
  let failMsg := "Invalid enum value: " ++ pyStr v ++ ". Expected one of: [" ++
    String.intercalate ", " (ms.map (fun m => "\x27" ++ m.2 ++ "\x27")) ++ "]"
  match v with
  | .str s =>
    if ms.any (fun m => m.2 = s) then .ok (.enumv s)
    else
      match ms.find? (fun m => pyLower m.1 = pyLower s) with
      | Option.some m => .ok (.enumv m.2)
      | Option.none => .error ⟨failMsg, expected⟩
  | _ => .error ⟨failMsg, expected⟩

/-- Whether a union member is `type(None)`. -/
def isNoneType : TypeHint → Bool
  | .noneType => true
  | _ => false

/-- Embedding of `MCPLambdaHandler._convert_union_value`: an `Optional[X]`
(exactly two members, one of them `NoneType`) unwraps to `X` for primitives
and enums; every other union passes the value through. -/
def convertUnionValue (v : PyVal) (args : List TypeHint) : Except ConvErr PyVal :=
  if args.any isNoneType ∧ args.length = 2 then
    match args.find? (fun t => ¬ isNoneType t) with
    | Option.some (.prim p) => convertPrimitiveValue v p
    | Option.some (.enum ms) => convertEnumValue v ms
    | _ => .ok v
  else .ok v

/-- Embedding of `MCPLambdaHandler._convert_list_value`: wrap a scalar in a
single-element list; pass lists through unchanged. -/
def convertListValue (v : PyVal) : Except ConvErr PyVal :=
  match v with
  | .list xs => .ok (.list xs)
  | w => .ok (.list [w])

/-- Embedding of `MCPLambdaHandler._convert_arg_value`: enum first, then
primitive-with-isinstance-check, then union, list and dict origins, with
pass-through as the default. -/
def convertArgValue (v : PyVal) (t : TypeHint) : Except ConvErr PyVal :=
  match t with
  | .enum ms => convertEnumValue v ms
  | .prim p => if isinst v p then .ok v else convertPrimitiveValue v p
  | .union args => convertUnionValue v args
  | .listOf _ => convertListValue v
  | .listAny => convertListValue v
  | .dictOf _ _ =>
    match v with
    | .dict kvs => .ok (.dict kvs)
    | w => .error ⟨"Expected dict, got " ++ pyTypeName w, "dictionary"⟩
  | .dictAny =>
    match v with
    | .dict kvs => .ok (.dict kvs)
    | w => .error ⟨"Expected dict, got " ++ pyTypeName w, "dictionary"⟩
  | .noneType => .ok v
  | .unknown => .ok v

/-- One declared parameter of a tool callable, as seen through
`inspect.signature` (name, default presence) and `get_type_hints`
(optional annotation). -/
structure Param where
  name : String
  hint : Option TypeHint
  hasDefault : Bool

/-- The type hints of a signature: the annotated parameters in declaration
order, as produced by `get_type_hints` (the `return` annotation is never a
parameter name, so it is omitted from the model). -/
def sigHints (sig : List Param) : List (String × TypeHint) :=
  sig.filterMap (fun p => p.hint.map (fun t => (p.name, t)))

/-- Embedding of the `missing_required` computation of
`MCPLambdaHandler._check_parameter_presence`: the declared parameters without
a default value that are absent from the supplied argument keys, in
declaration order. -/
def missingRequired (sig : List Param) (provided : List String) : List String :=
  (sig.filter (fun p => ¬ p.hasDefault ∧ p.name ∉ provided)).map (·.name)

/-- A conversion failure lifted to its argument, as materialized in the
`Invalid value for parameter ...` error response of
`_convert_and_validate_args`. -/
structure ConvFail where
  argName : String
  message : String
  expected : String
  received : String

/-- A structured validation failure from `_validate_tool_args`: either the
missing-required-parameters error of `_check_parameter_presence` or a
per-value conversion failure. -/
inductive ToolArgError where
  | missing (names : List String)
  | conv (f : ConvFail)

/-- Whether a value is the Python `None` (`arg_value is None`). -/
def isNoneVal : PyVal → Bool
  | .none => true
  | _ => false

/-- One iteration of the loop of `_convert_and_validate_args`: pass unhinted
names and `None` values through, otherwise convert the value, lifting a
failure to its argument. -/
def convertEntry (k : String) (v : PyVal) (hints : List (String × TypeHint)) :
    Except ConvFail (String × PyVal) :=
  match hints.lookup k with
  | Option.none => .ok (k, v)
  | Option.some t =>
    if isNoneVal v then .ok (k, .none)
    else
      match convertArgValue v t with
      | .ok r => .ok (k, r)
      | .error e => .error ⟨k, e.message, e.expected, pyTypeName v⟩

/-- Embedding of `MCPLambdaHandler._convert_and_validate_args`: convert the
supplied arguments in order and short-circuit on the first conversion
failure. -/
def convertAndValidateArgs (args : List (String × PyVal)) (hints : List (String × TypeHint)) :
    Except ConvFail (List (String × PyVal)) :=
  match args with
  | [] => .ok []
  | (k, v) :: rest =>
    match convertEntry k v hints with
    | .error e => .error e
    | .ok kr =>
      match convertAndValidateArgs rest hints with
      | .ok c => .ok (kr :: c)
      | .error e => .error e

/-- Embedding of `MCPLambdaHandler._validate_tool_args` composed with
`_check_parameter_presence`: reject when required parameters are missing,
silently drop supplied keys that are not declared parameters, then convert
the remaining values. -/
def validateToolArgs (sig : List Param) (args : List (String × PyVal)) :
    Except ToolArgError (List (String × PyVal)) :=
  let provided := args.map (·.1)
  let missing := missingRequired sig provided
  if missing.isEmpty then
    let kept := args.filter (fun kv => kv.1 ∈ sig.map (·.name))
    match convertAndValidateArgs kept (sigHints sig) with
    | .ok c => .ok c
    | .error e => .error (.conv e)
  else .error (.missing missing)

/-! Constants from `service/mcp_lambda_handler/constants.py`. -/

def CONTENT_TYPE_JSON : String := "application/json"

def MCP_VERSION : String := "0.6"

def MCP_PROTOCOL_VERSION : String := "2024-11-05"

def ERROR_PARSE : Int := -32700

def ERROR_INVALID_REQUEST : Int := -32600

def ERROR_METHOD_NOT_FOUND : Int := -32601

def ERROR_INVALID_PARAMS : Int := -32602

def ERROR_INTERNAL : Int := -32603

def ERROR_SERVER : Int := -32000

/-- A JSON-RPC request identifier (`id: Optional[Union[str, int]]`). -/
inductive RpcId where
  | str (s : String)
  | num (n : Int)
deriving DecidableEq

/-- The recognized JSON-RPC methods of `models.MCPMethod`. -/
inductive MCPMethod where
  | initMethod
  | notification
  | toolsList
  | toolsCall
  | ping
deriving DecidableEq

/-- The `params` field of a JSON-RPC request
(`Optional[Union[Dict[str, Any], list]]`). -/
inductive RpcParams where
  | obj (kvs : List (String × PyVal))
  | arr (xs : List PyVal)

/-- A validated JSON-RPC request body (`models.JSONRPCRequest` after pydantic
validation). -/
structure JSONRPCRequest where
  id : Option RpcId
  method : MCPMethod
  params : Option RpcParams

/-- The raw POST body before validation: either unparsable JSON (or JSON whose
fields are ill-typed for the pydantic model) or a JSON object carrying the
envelope fields, each possibly absent. -/
inductive RawBody where
  | malformed
  | obj (jsonrpc : Option String) (id : Option RpcId) (method : Option String)
      (params : Option RpcParams)

/-- Embedding of `JSONRPCRequest.validate_method`: absent methods are
rejected, any `notifications/`-prefixed name is the notification method, any
other name must be a literal member value of `MCPMethod`. -/
def validateMethod (v : Option String) : Option MCPMethod :=
  match v with
  | Option.none => Option.none
  | Option.some s =>
    if s.startsWith "notifications/" then Option.some .notification
    else if s = "initialize" then Option.some .initMethod
    else if s = "notification" then Option.some .notification
    else if s = "tools/list" then Option.some .toolsList
    else if s = "tools/call" then Option.some .toolsCall
    else if s = "ping" then Option.some .ping
    else Option.none

/-- Embedding of the pydantic validation of `models.JSONRPCRequest`: the body
must be a JSON object, `jsonrpc` must be the literal `2.0`, and the method
must validate; `id` and `params` are optional. -/
def parseJSONRPCRequest (body : RawBody) : Option JSONRPCRequest :=
  match body with
  | .malformed => Option.none
  | .obj jsonrpc id method params =>
    if jsonrpc = Option.some "2.0" then
      match validateMethod method with
      | Option.some m => Option.some ⟨id, m, params⟩
      | Option.none => Option.none
    else Option.none

/-- Request headers after the lowercase normalization of
`McpApiGatewayProxyEventHeaders`; `contentType = none` models an absent
`content-type` header (whose pydantic default is not the JSON media type). -/
structure ReqHeaders where
  contentType : Option String
  mcpSessionId : Option String

/-- Python truthiness of an optional string (`if self.session_id:`): absent
and empty strings are falsy. -/
def optStrTruthy : Option String → Bool
  | Option.none => false
  | Option.some s => s ≠ ""

/-- Python truthiness of the `params` field
(`if not parsed_event.body.params:`). -/
def paramsTruthy : Option RpcParams → Bool
  | Option.none => false
  | Option.some (.obj kvs) => ¬ kvs.isEmpty
  | Option.some (.arr xs) => ¬ xs.isEmpty

/-- The body of an HTTP response as built by the dispatcher: absent (the
DELETE responses carry no body key), the literal empty string (notification
responses), or a serialized JSON-RPC response. -/
inductive HttpBody where
  | absent
  | emptyStr
  | rpc (id : Option RpcId) (result : Option PyVal) (errCode : Option Int)
      (errMessage : Option String) (errData : Option PyVal)

/-- An HTTP response envelope as returned by `handle_request`:
`headers = none` models a response dict without a `headers` key. -/
structure HttpResponse where
  statusCode : Nat
  body : HttpBody
  headers : Option (List (String × String))

/-- Lookup of a response header value. -/
def headerVal (r : HttpResponse) (k : String) : Option String :=
  r.headers.bind (fun hs => hs.lookup k)

/-- Embedding of `MCPLambdaHandler._error_code_to_http_status`. -/
def errorCodeToHttpStatus (c : Int) : Nat :=
  if c = ERROR_PARSE then 400
  else if c = ERROR_INVALID_REQUEST then 400
  else if c = ERROR_METHOD_NOT_FOUND then 404
  else if c = ERROR_INVALID_PARAMS then 400
  else if c = ERROR_INTERNAL then 500
  else 500

/-- Embedding of `MCPLambdaHandler._create_error_response` (the unused
`error_content` argument is omitted: no caller passes it). The session header
is attached only for a truthy session id. -/
def createErrorResponse (code : Int) (message : String) (requestId : Option RpcId)
    (sessionId : Option String) (statusCode : Option Nat) (data : Option PyVal) :
    HttpResponse :=
  let base := [("Content-Type", CONTENT_TYPE_JSON), ("MCP-Version", MCP_VERSION)]
  let headers :=
    if optStrTruthy sessionId then base ++ [("MCP-Session-Id", sessionId.getD "")]
    else base
  { statusCode := statusCode.getD (errorCodeToHttpStatus code)
    body := .rpc requestId Option.none (Option.some code) (Option.some message) data
    headers := Option.some headers }

/-- Embedding of `MCPLambdaHandler._create_success_response`. -/
def createSuccessResponse (result : PyVal) (requestId : Option RpcId)
    (sessionId : Option String) : HttpResponse :=
  let base := [("Content-Type", CONTENT_TYPE_JSON), ("MCP-Version", MCP_VERSION)]
  let headers :=
    if optStrTruthy sessionId then base ++ [("MCP-Session-Id", sessionId.getD "")]
    else base
  { statusCode := 200
    body := .rpc requestId (Option.some result) Option.none Option.none Option.none
    headers := Option.some headers }

/-- Model of Python `str.capitalize`: first character uppercased, the rest
lowercased. -/
def pyCapitalize (w : String) : String :=
  match w.data with
  | [] => ""
  | c :: rest => String.mk (c.toUpper :: rest.map Char.toLower)

/-- Embedding of the tool-name derivation in `MCPLambdaHandler.tool`: split
the function identifier on underscores and join as lower camel case. -/
def toolNameOf (funcName : String) : String :=
  match funcName.splitOn "_" with
  | [] => ""
  | w :: ws => String.join (w :: ws.map pyCapitalize)

/-- Embedding of the nested `get_type_schema` of `MCPLambdaHandler.tool`:
the JSON Schema fragment for one annotation, rendered as a `PyVal` dict. -/
def getTypeSchema : TypeHint → PyVal
  | .prim .int => .dict [("type", .str "integer")]
  | .prim .float => .dict [("type", .str "number")]
  | .prim .bool => .dict [("type", .str "boolean")]
  | .prim .str => .dict [("type", .str "string")]
  | .enum ms => .dict [("type", .str "string"), ("enum", .list (ms.map (fun m => .str m.2)))]
  | .noneType => .dict [("type", .str "string")]
  | .union _ => .dict [("type", .str "string")]
  | .dictAny => .dict [("type", .str "object"), ("additionalProperties", .bool true)]
  | .dictOf _ v => .dict [("type", .str "object"), ("additionalProperties", getTypeSchema v)]
  | .listAny => .dict [("type", .str "array"), ("items", .dict [])]
  | .listOf t => .dict [("type", .str "array"), ("items", getTypeSchema t)]
  | .unknown => .dict [("type", .str "string")]

/-- Append a key to a dict value (`param_schema[k] = v` on a fresh key);
non-dict values are unchanged. -/
def dictAppend (d : PyVal) (k : String) (v : PyVal) : PyVal :=
  match d with
  | .dict kvs => .dict (kvs ++ [(k, v)])
  | w => w

/-- A registered function as the schema builder sees it: its identifier, its
cleaned docstring, its parameters in declaration order, and the per-parameter
descriptions recovered from the docstring `Args:` section (the line parse of
that section is modelled by this given mapping). -/
structure FuncSpec where
  funcName : String
  doc : String
  params : List Param
  argDescriptions : List (String × String)

/-- The tool descriptor registered in `self.tools` by `MCPLambdaHandler.tool`. -/
structure ToolSchema where
  name : String
  description : String
  properties : List (String × PyVal)
  required : List String

/-- Embedding of the schema construction in `MCPLambdaHandler.tool`: the
property map and the `required` list are built from the type hints (every
annotated parameter is appended to `required`), and the description is the
first docstring paragraph. -/
def mkToolSchema (f : FuncSpec) : ToolSchema :=
  let hinted := sigHints f.params
  let props := hinted.map (fun nt =>
    match f.argDescriptions.lookup nt.1 with
    | Option.some d => (nt.1, dictAppend (getTypeSchema nt.2) "description" (.str d))
    | Option.none => (nt.1, getTypeSchema nt.2))
  { name := toolNameOf f.funcName
    description := ((f.doc.splitOn "\n\n").headD "")
    properties := props
    required := hinted.map (·.1) }

/-- The serialized tool descriptor as it appears in the `tools/list` result. -/
def toolSchemaVal (t : ToolSchema) : PyVal :=
  .dict [("name", .str t.name), ("description", .str t.description),
    ("inputSchema", .dict [("type", .str "object"),
      ("properties", .dict t.properties),
      ("required", .list (t.required.map PyVal.str))])]

/-- A registered tool implementation: the signature of the callable and the
callable itself; a `.error` result models an exception raised by the tool. -/
structure ToolFunc where
  params : List Param
  run : List (String × PyVal) → Except Unit PyVal

/-- The per-process state of the dispatcher: server identity plus the tool
registry (`self.tools`) and the implementations (`self.tool_implementations`),
both keyed by tool name and populated together at registration. -/
structure Handler where
  name : String
  version : String
  tools : List (String × ToolSchema)
  impls : List (String × ToolFunc)

/-- The session store as the dispatcher observes it within one request: the
lookup used by `_validate_session`/`get_session` and the id that
`create_session` would mint. -/
structure StoreModel where
  get : String → Option (List (String × PyVal))
  freshId : String

/-- Embedding of `MCPLambdaHandler._validate_session`: the current session id
must resolve in the store. A `none` id models the unreachable call with a
missing id, which the DynamoDB store turns into a lookup failure (its
`get_session` catches every exception and returns `None`). -/
def validateSession (store : StoreModel) (sid : Option String) : Bool :=
  match sid with
  | Option.none => false
  | Option.some s => (store.get s).isSome

/-- One session record of `DynamoDBSessionStore` (`session.py`): expiry and
creation epochs plus the JSON data document. -/
structure SessionRecord where
  expiresAt : Int
  createdAt : Int
  data : List (String × PyVal)

/-- Embedding of `DynamoDBSessionStore.get_session`: a missing record is
`None`; a record past its expiry is lazily deleted and reported `None`;
otherwise the data document is returned. The result pairs the returned data
with the table after the lazy deletion. -/
def dynamoGetSession (table : List (String × SessionRecord)) (now : Int) (sid : String) :
    Option (List (String × PyVal)) × List (String × SessionRecord) :=
  match table.lookup sid with
  | Option.none => (Option.none, table)
  | Option.some r =>
    if r.expiresAt < now then (Option.none, table.filter (fun kv => kv.1 ≠ sid))
    else (Option.some r.data, table)

/-- The `StoreModel` view of a DynamoDB-backed session table at one instant. -/
def dynamoStore (table : List (String × SessionRecord)) (now : Int) (fresh : String) :
    StoreModel :=
  { get := fun sid => (dynamoGetSession table now sid).1, freshId := fresh }

/-- Lift a structured validation failure to the error response built inside
`_check_parameter_presence` / `_convert_and_validate_args`. -/
def toolArgErrorResponse (e : ToolArgError) (rid : Option RpcId) (sid : Option String) :
    HttpResponse :=
  match e with
  | .missing names =>
    createErrorResponse ERROR_INVALID_PARAMS
      ("Missing required parameters: " ++ String.intercalate ", " names) rid sid
      Option.none Option.none
  | .conv f =>
    createErrorResponse ERROR_INVALID_PARAMS
      ("Invalid value for parameter \x27" ++ f.argName ++ "\x27: " ++ f.message) rid sid
      Option.none (Option.some (.dict [("expected", .str f.expected), ("received", .str f.received)]))

/-- Embedding of `_validate_tool_args` at the response level: the structured
failure mapped to the error response it produces. -/
def validateToolArgsResp (sig : List Param) (args : List (String × PyVal))
    (rid : Option RpcId) (sid : Option String) :
    Except HttpResponse (List (String × PyVal)) :=
  match validateToolArgs sig args with
  | .ok c => .ok c
  | .error e => .error (toolArgErrorResponse e rid sid)

/-- The success payload of a tool call: the stringified result wrapped as a
single text content item (`types.TextContent`, modelled from the spec wording
for the missing `types.py`: a `{type: "text", text}` item). -/
def toolSuccessVal (r : PyVal) : PyVal :=
  .dict [("content", .list [.dict [("type", .str "text"), ("text", .str (pyStr r))]])]

/-- The dispatch of one resolved tool: extract `arguments` (a non-dict value
raises inside the guarded block and becomes the generic tool error), validate
and convert, then invoke the implementation; a raising implementation also
becomes the generic tool error. -/
def invokeTool (tf : ToolFunc) (kvs : List (String × PyVal)) (rid : Option RpcId)
    (sid : Option String) : HttpResponse :=
  let argsVal := (kvs.lookup "arguments").getD (.dict [])
  match argsVal with
  | .dict args =>
    match validateToolArgsResp tf.params args rid sid with
    | .error resp => resp
    | .ok conv =>
      match tf.run conv with
      | .ok r => createSuccessResponse (toolSuccessVal r) rid sid
      | .error _ =>
        createErrorResponse ERROR_INTERNAL "Error executing tool" rid sid
          Option.none Option.none
  | _ =>
    createErrorResponse ERROR_INTERNAL "Error executing tool" rid sid
      Option.none Option.none

/-- Embedding of `MCPLambdaHandler._handle_tools_call`: empty `params` is
rejected first, then the session is validated (without echoing the session
header), then the named tool is resolved and invoked. A list-shaped `params`
reaches attribute access on a list and escalates to the top-level internal
error; a registry entry without an implementation raises inside the guarded
block and becomes the generic tool error. -/
def handleToolsCall (h : Handler) (store : StoreModel) (rid : Option RpcId)
    (sid : Option String) (params : Option RpcParams) : HttpResponse :=
  if paramsTruthy params = false then
    createErrorResponse ERROR_INVALID_PARAMS "Missing parameters for tools/call" rid sid
      Option.none Option.none
  else if validateSession store sid = false then
    createErrorResponse ERROR_SERVER "Invalid or expired session" rid Option.none
      (Option.some 404) Option.none
  else
    match params with
    | Option.some (.obj kvs) =>
      let toolName := (kvs.lookup "name").getD .none
      match toolName with
      | .str nm =>
        match h.tools.lookup nm with
        | Option.some _ =>
          match h.impls.lookup nm with
          | Option.some tf => invokeTool tf kvs rid sid
          | Option.none =>
            createErrorResponse ERROR_INTERNAL "Error executing tool" rid sid
              Option.none Option.none
        | Option.none =>
          createErrorResponse ERROR_METHOD_NOT_FOUND
            ("Tool \x27" ++ nm ++ "\x27 not found") rid sid Option.none Option.none
      | tn =>
        createErrorResponse ERROR_METHOD_NOT_FOUND
          ("Tool \x27" ++ pyStr tn ++ "\x27 not found") rid sid Option.none Option.none
    | _ =>
      createErrorResponse ERROR_INTERNAL "Internal server error" rid sid
        Option.none Option.none

/-- The `initialize` result payload (`types.InitializeResult`, modelled from
the spec: protocol version, server identity and the declared capabilities). -/
def initResultVal (h : Handler) : PyVal :=
  .dict [("protocolVersion", .str MCP_PROTOCOL_VERSION),
    ("serverInfo", .dict [("name", .str h.name), ("version", .str h.version)]),
    ("capabilities", .dict [("tools", .dict [("list", .bool true), ("call", .bool true)])])]

/-- Embedding of `MCPLambdaHandler._handle_initialize`: mint a session and
attach it to the success response. -/
def handleInitMethod (h : Handler) (store : StoreModel) (rid : Option RpcId) :
    HttpResponse :=
  createSuccessResponse (initResultVal h) rid (Option.some store.freshId)

/-- The `tools/list` result payload. -/
def toolsListVal (h : Handler) : PyVal :=
  .dict [("tools", .list (h.tools.map (fun t => toolSchemaVal t.2)))]

/-- The 202 notification acknowledgment literal of `_handle_http_post`. -/
def notificationResponse : HttpResponse :=
  { statusCode := 202
    body := .emptyStr
    headers := Option.some [("Content-Type", CONTENT_TYPE_JSON), ("MCP-Version", MCP_VERSION)] }

/-- String rendering of an `MCPMethod` member (`str(enum_member)`), used only
in the dead unknown-method branch. -/
def methodRender : MCPMethod → String
  | .initMethod => "MCPMethod.INITIALIZE"
  | .notification => "MCPMethod.NOTIFICATION"
  | .toolsList => "MCPMethod.TOOLS_LIST"
  | .toolsCall => "MCPMethod.TOOLS_CALL"
  | .ping => "MCPMethod.PING"

/-- Embedding of `MCPLambdaHandler._handle_http_post`: media-type gate,
notification acknowledgment, session-required gate, then method dispatch.
The unknown-method branch mirrors the source fallthrough (unreachable: every
parsed method has a handler, the notification already returned). -/
def handleHttpPost (h : Handler) (store : StoreModel) (hdrs : ReqHeaders)
    (req : JSONRPCRequest) : HttpResponse :=
  let sid := hdrs.mcpSessionId
  if hdrs.contentType ≠ Option.some CONTENT_TYPE_JSON then
    createErrorResponse ERROR_PARSE "Unsupported Media Type" Option.none Option.none
      Option.none Option.none
  else if req.method = .notification then notificationResponse
  else if optStrTruthy sid = false ∧ req.method ≠ .initMethod then
    createErrorResponse ERROR_INVALID_REQUEST "Session required" req.id Option.none
      (Option.some 400) Option.none
  else
    match req.method with
    | .initMethod => handleInitMethod h store req.id
    | .toolsList => createSuccessResponse (toolsListVal h) req.id sid
    | .toolsCall => handleToolsCall h store req.id sid req.params
    | .ping => createSuccessResponse (.dict []) req.id sid
    | .notification =>
      createErrorResponse ERROR_METHOD_NOT_FOUND
        ("Method not found: " ++ methodRender req.method) req.id sid
        Option.none Option.none

/-- One incoming Lambda event for `handle_request`: a POST with its raw body,
a DELETE, or any other HTTP method. -/
inductive LambdaEvent where
  | post (hdrs : ReqHeaders) (body : RawBody)
  | delete (hdrs : ReqHeaders)
  | other (method : Option String)

/-- Embedding of `MCPLambdaHandler.handle_request` together with
`_handle_http_delete`: unsupported verbs and parse failures are rejected,
DELETE responds 204/404 with a bare status dict, POST is dispatched. -/
def handleRequest (h : Handler) (store : StoreModel) (ev : LambdaEvent) : HttpResponse :=
  match ev with
  | .other m =>
    createErrorResponse ERROR_INVALID_REQUEST
      ("Unsupported HTTP method: " ++ (m.getD "None")) Option.none Option.none
      Option.none Option.none
  | .delete hdrs =>
    if optStrTruthy hdrs.mcpSessionId then
      { statusCode := 204, body := .absent, headers := Option.none }
    else
      { statusCode := 404, body := .absent, headers := Option.none }
  | .post hdrs body =>
    match parseJSONRPCRequest body with
    | Option.none =>
      createErrorResponse ERROR_INVALID_REQUEST "Parse error" Option.none Option.none
        Option.none Option.none
    | Option.some req => handleHttpPost h store hdrs req

/-! Concrete fixtures: the sample `math` tool of `handlers/mcp.py`
(`math(a: int, b: int) -> int`), a function with a defaulted parameter, and
simple session stores. -/

/-- The registered `math` tool of `handlers/mcp.py`. -/
def mathSpec : FuncSpec :=
  { funcName := "math"
    doc := "Add two numbers together"
    params := [⟨"a", Option.some (.prim .int), false⟩, ⟨"b", Option.some (.prim .int), false⟩]
    argDescriptions := [] }

/-- The `math` implementation: add the two integer arguments. -/
def mathFunc : ToolFunc :=
  { params := mathSpec.params
    run := fun args =>
      match args.lookup "a", args.lookup "b" with
      | Option.some (.int x), Option.some (.int y) => .ok (.int (x + y))
      | _, _ => .error () }

/-- A handler with the single registered `math` tool. -/
def mathHandler : Handler :=
  { name := "mcp-lambda-server"
    version := "1.0.0"
    tools := [("math", mkToolSchema mathSpec)]
    impls := [("math", mathFunc)] }

/-- A store with no live sessions. -/
def emptyStore : StoreModel := { get := fun _ => Option.none, freshId := "sess-fresh" }

/-- A store in which exactly the session `s` is live. -/
def liveStore (s : String) : StoreModel :=
  { get := fun x => if x = s then Option.some [] else Option.none, freshId := "sess-fresh" }

/-- A registered function with one required and one defaulted parameter, both
type-hinted, as in `def sample_tool(a: int, b: str = "x")`. -/
def defaultedSpec : FuncSpec :=
  { funcName := "sample_tool"
    doc := "Sample tool"
    params := [⟨"a", Option.some (.prim .int), false⟩, ⟨"b", Option.some (.prim .str), true⟩]
    argDescriptions := [] }

/-- The map of `sigHints` keys is the name list of the annotated parameters. -/
theorem sigHints_keys (ps : List Param) :
    (sigHints ps).map (·.1) = (ps.filter (fun p => p.hint.isSome)).map Param.name := by
  induction ps with
  | nil => rfl
  | cons p ps ih =>
    cases h : p.hint with
    | none => simp [sigHints, List.filterMap_cons, h, List.filter_cons] at ih ⊢; exact ih
    | some t => simp [sigHints, List.filterMap_cons, h, List.filter_cons] at ih ⊢; exact ih

/-- C1 counterexample: for the registered function
`sample_tool(a: int, b: str = "x")`, the defaulted parameter `b` still lands
in `inputSchema.required`, so "a parameter appears in `required` iff it lacks
a default" fails on the generated descriptor. -/
theorem C1_counterexample :
    ¬ (∀ p ∈ defaultedSpec.params,
        (p.name ∈ (mkToolSchema defaultedSpec).required ↔ p.hasDefault = false)) := by
  decide

/-- C1 (amended): the generated `required` list contains exactly the
type-hinted parameters, in declaration order, regardless of whether they have
a default value (`tool()` appends every entry of `get_type_hints` to
`required` without consulting defaults). -/
theorem C1_required_lists_hinted (f : FuncSpec) :
    (mkToolSchema f).required = (f.params.filter (fun p => p.hint.isSome)).map Param.name :=
  sigHints_keys f.params

/-- Header contents of every envelope built by `_create_error_response`. -/
theorem errorResponse_headers (code : Int) (message : String) (rid : Option RpcId)
    (sid : Option String) (st : Option Nat) (data : Option PyVal) :
    headerVal (createErrorResponse code message rid sid st data) "Content-Type"
        = Option.some CONTENT_TYPE_JSON
    ∧ headerVal (createErrorResponse code message rid sid st data) "MCP-Version"
        = Option.some MCP_VERSION
    ∧ headerVal (createErrorResponse code message rid sid st data) "MCP-Session-Id"
        = (if optStrTruthy sid then sid else Option.none) := by
  by_cases h : optStrTruthy sid
  · cases sid with
    | none => simp [optStrTruthy] at h
    | some s => simp [headerVal, createErrorResponse, h, List.lookup]
  · simp [headerVal, createErrorResponse, h, List.lookup]

/-- Header contents of every envelope built by `_create_success_response`. -/
theorem successResponse_headers (result : PyVal) (rid : Option RpcId)
    (sid : Option String) :
    headerVal (createSuccessResponse result rid sid) "Content-Type"
        = Option.some CONTENT_TYPE_JSON
    ∧ headerVal (createSuccessResponse result rid sid) "MCP-Version"
        = Option.some MCP_VERSION
    ∧ headerVal (createSuccessResponse result rid sid) "MCP-Session-Id"
        = (if optStrTruthy sid then sid else Option.none) := by
  by_cases h : optStrTruthy sid
  · cases sid with
    | none => simp [optStrTruthy] at h
    | some s => simp [headerVal, createSuccessResponse, h, List.lookup]
  · simp [headerVal, createSuccessResponse, h, List.lookup]

/-- C2 counterexample: a DELETE request that carries the session identifier
`sess-1` is answered by a bare `{statusCode: 204}` dict — no `Content-Type`,
no protocol-version header, and no `MCP-Session-Id` echo — refuting the claim
for DELETE responses. -/
theorem C2_counterexample :
    (handleRequest mathHandler emptyStore
        (.delete ⟨Option.some CONTENT_TYPE_JSON, Option.some "sess-1"⟩)).headers
      = Option.none
    ∧ (handleRequest mathHandler emptyStore
        (.delete ⟨Option.some CONTENT_TYPE_JSON, Option.some "sess-1"⟩)).statusCode = 204 :=
  ⟨rfl, rfl⟩

/-- C2 (amended): every JSON-RPC success or error envelope built by the
response builders carries `Content-Type` and `MCP-Version`, and carries
`MCP-Session-Id` exactly when the dispatcher hands the builder a non-empty
session id; but DELETE responses carry no headers at all, the
invalid-or-expired-session error omits the session echo (the dispatcher does
not pass the session id there), and the notification acknowledgment carries
only `Content-Type` and `MCP-Version`. -/
theorem C2_response_headers :
    (∀ code message rid sid st data,
      headerVal (createErrorResponse code message rid sid st data) "Content-Type"
          = Option.some CONTENT_TYPE_JSON
      ∧ headerVal (createErrorResponse code message rid sid st data) "MCP-Version"
          = Option.some MCP_VERSION
      ∧ headerVal (createErrorResponse code message rid sid st data) "MCP-Session-Id"
          = (if optStrTruthy sid then sid else Option.none))
    ∧ (∀ result rid sid,
      headerVal (createSuccessResponse result rid sid) "Content-Type"
          = Option.some CONTENT_TYPE_JSON
      ∧ headerVal (createSuccessResponse result rid sid) "MCP-Version"
          = Option.some MCP_VERSION
      ∧ headerVal (createSuccessResponse result rid sid) "MCP-Session-Id"
          = (if optStrTruthy sid then sid else Option.none))
    ∧ (∀ h store hdrs, (handleRequest h store (.delete hdrs)).headers = Option.none)
    ∧ (∀ h rid sid,
      headerVal (handleToolsCall h emptyStore rid sid
          (Option.some (.obj [("name", .str "math")]))) "MCP-Session-Id" = Option.none)
    ∧ notificationResponse.headers
        = Option.some [("Content-Type", CONTENT_TYPE_JSON), ("MCP-Version", MCP_VERSION)] := by
  refine ⟨errorResponse_headers, successResponse_headers, ?_, ?_, rfl⟩
  · intro h store hdrs
    simp only [handleRequest]
    by_cases hs : optStrTruthy hdrs.mcpSessionId <;> simp [hs]
  · intro h rid sid
    have hsession : validateSession emptyStore sid = false := by
      cases sid <;> simp [validateSession, emptyStore]
    simp only [handleToolsCall, hsession, paramsTruthy]
    simp [errorResponse_headers ERROR_SERVER "Invalid or expired session" rid Option.none
      (Option.some 404) Option.none |>.2.2, optStrTruthy]

/-- C3: a POST whose body is unparsable, or whose `jsonrpc` field is not the
literal `2.0`, or whose method is absent or unrecognized, is answered by the
single coalesced error: `InvalidRequest` (-32600) with message exactly
`Parse error` and HTTP status 400, whatever the underlying cause was. -/
theorem C3_parse_failures_coalesced (h : Handler) (store : StoreModel) (hdrs : ReqHeaders)
    (body : RawBody)
    (hbad : body = .malformed ∨
      ∃ j i m p, body = .obj j i m p ∧ (j ≠ Option.some "2.0" ∨ validateMethod m = Option.none)) :
    handleRequest h store (.post hdrs body)
      = createErrorResponse ERROR_INVALID_REQUEST "Parse error" Option.none Option.none
          Option.none Option.none
    ∧ (handleRequest h store (.post hdrs body)).statusCode = 400 := by
  have hnone : parseJSONRPCRequest body = Option.none := by
    rcases hbad with rfl | ⟨j, i, m, p, rfl, hj | hm⟩
    · rfl
    · simp [parseJSONRPCRequest, hj]
    · simp only [parseJSONRPCRequest, hm]
      split <;> rfl
  refine ⟨by simp [handleRequest, hnone], ?_⟩
  simp [handleRequest, hnone]
  rfl

/-- C3 witness: a well-formed JSON object whose method name is unrecognized
gets the coalesced parse error. -/
theorem C3_witness :
    handleRequest mathHandler emptyStore
        (.post ⟨Option.some CONTENT_TYPE_JSON, Option.none⟩
          (.obj (Option.some "2.0") Option.none (Option.some "frobnicate") Option.none))
      = createErrorResponse ERROR_INVALID_REQUEST "Parse error" Option.none Option.none
          Option.none Option.none :=
  (C3_parse_failures_coalesced mathHandler emptyStore ⟨Option.some CONTENT_TYPE_JSON, Option.none⟩
    (.obj (Option.some "2.0") Option.none (Option.some "frobnicate") Option.none)
    (Or.inr ⟨Option.some "2.0", Option.none, Option.some "frobnicate", Option.none, rfl,
      Or.inr (by decide)⟩)).1

/-- C4: a well-formed, JSON-media-type, non-notification POST without a
session identifier whose method is not `initialize` is rejected with
`InvalidRequest` `Session required` and HTTP 400, independently of the
registry and the session store (no method handler runs). -/
theorem C4_session_required (h : Handler) (store : StoreModel) (hdrs : ReqHeaders)
    (body : RawBody) (req : JSONRPCRequest)
    (hparse : parseJSONRPCRequest body = Option.some req)
    (hct : hdrs.contentType = Option.some CONTENT_TYPE_JSON)
    (hnotif : req.method ≠ .notification)
    (hsid : hdrs.mcpSessionId = Option.none)
    (hinit : req.method ≠ .initMethod) :
    handleRequest h store (.post hdrs body)
      = createErrorResponse ERROR_INVALID_REQUEST "Session required" req.id Option.none
          (Option.some 400) Option.none
    ∧ (handleRequest h store (.post hdrs body)).statusCode = 400 := by
  have hmain : handleRequest h store (.post hdrs body)
      = createErrorResponse ERROR_INVALID_REQUEST "Session required" req.id Option.none
          (Option.some 400) Option.none := by
    simp [handleRequest, hparse, handleHttpPost, hct, hnotif, hsid, optStrTruthy, hinit]
  exact ⟨hmain, by rw [hmain]; rfl⟩

/-- C4 witness: `tools/list` with no session header is rejected with the
`Session required` error. -/
theorem C4_witness :
    handleRequest mathHandler emptyStore
        (.post ⟨Option.some CONTENT_TYPE_JSON, Option.none⟩
          (.obj (Option.some "2.0") (Option.some (.str "1")) (Option.some "tools/list")
            Option.none))
      = createErrorResponse ERROR_INVALID_REQUEST "Session required" (Option.some (.str "1"))
          Option.none (Option.some 400) Option.none :=
  (C4_session_required mathHandler emptyStore ⟨Option.some CONTENT_TYPE_JSON, Option.none⟩
    (.obj (Option.some "2.0") (Option.some (.str "1")) (Option.some "tools/list") Option.none)
    ⟨Option.some (.str "1"), .toolsList, Option.none⟩
    rfl rfl (by decide) rfl (by decide)).1

/-- C5: a `tools/call` POST with truthy params whose session identifier does
not resolve to a live DynamoDB record — never issued, deleted, or past its
`expires_at` — is answered by `ServerError` (-32000) `Invalid or expired
session` with HTTP 404, for every registry and tool implementation (so the
named tool is never invoked). -/
theorem C5_invalid_session (h : Handler) (table : List (String × SessionRecord))
    (now : Int) (fresh : String) (hdrs : ReqHeaders) (body : RawBody)
    (req : JSONRPCRequest) (s : String)
    (hparse : parseJSONRPCRequest body = Option.some req)
    (hct : hdrs.contentType = Option.some CONTENT_TYPE_JSON)
    (hmethod : req.method = .toolsCall)
    (hparams : paramsTruthy req.params = true)
    (hsid : hdrs.mcpSessionId = Option.some s) (hs : s ≠ "")
    (hdead : table.lookup s = Option.none
      ∨ ∃ r, table.lookup s = Option.some r ∧ r.expiresAt < now) :
    handleRequest h (dynamoStore table now fresh) (.post hdrs body)
      = createErrorResponse ERROR_SERVER "Invalid or expired session" req.id Option.none
          (Option.some 404) Option.none
    ∧ (handleRequest h (dynamoStore table now fresh) (.post hdrs body)).statusCode = 404 := by
  have hget : (dynamoStore table now fresh).get s = Option.none := by
    rcases hdead with hnone | ⟨r, hr, hexp⟩
    · simp [dynamoStore, dynamoGetSession, hnone]
    · simp [dynamoStore, dynamoGetSession, hr, hexp]
  have hsession : validateSession (dynamoStore table now fresh) (Option.some s) = false := by
    simp [validateSession, hget]
  have hmain : handleRequest h (dynamoStore table now fresh) (.post hdrs body)
      = createErrorResponse ERROR_SERVER "Invalid or expired session" req.id Option.none
          (Option.some 404) Option.none := by
    simp [handleRequest, hparse, handleHttpPost, hct, hmethod, hsid, optStrTruthy, hs,
      handleToolsCall, hparams, hsession]
  exact ⟨hmain, by rw [hmain]; rfl⟩

/-- C5 witness: calling the `math` tool with a session identifier that was
never issued (empty session table) yields the 404 invalid-session error. -/
theorem C5_witness :
    handleRequest mathHandler (dynamoStore [] 0 "sess-fresh")
        (.post ⟨Option.some CONTENT_TYPE_JSON, Option.some "never-issued"⟩
          (.obj (Option.some "2.0") (Option.some (.str "6")) (Option.some "tools/call")
            (Option.some (.obj [("name", .str "math")]))))
      = createErrorResponse ERROR_SERVER "Invalid or expired session" (Option.some (.str "6"))
          Option.none (Option.some 404) Option.none :=
  (C5_invalid_session mathHandler [] 0 "sess-fresh"
    ⟨Option.some CONTENT_TYPE_JSON, Option.some "never-issued"⟩
    (.obj (Option.some "2.0") (Option.some (.str "6")) (Option.some "tools/call")
      (Option.some (.obj [("name", .str "math")])))
    ⟨Option.some (.str "6"), .toolsCall, Option.some (.obj [("name", .str "math")])⟩
    "never-issued" rfl rfl rfl rfl rfl (by decide) (Or.inl rfl)).1

/-- C10: a `tools/call` POST carrying a session header but absent-or-empty
`params` is rejected with `InvalidParams` (-32602) `Missing parameters for
tools/call` and HTTP 400, for every session store — the check precedes
session validation, so the store is never consulted and the same error comes
back even for an invalid or expired session identifier. -/
theorem C10_empty_params_before_session (h : Handler) (store : StoreModel)
    (hdrs : ReqHeaders) (body : RawBody) (req : JSONRPCRequest)
    (hparse : parseJSONRPCRequest body = Option.some req)
    (hct : hdrs.contentType = Option.some CONTENT_TYPE_JSON)
    (hmethod : req.method = .toolsCall)
    (hsid : optStrTruthy hdrs.mcpSessionId = true)
    (hparams : paramsTruthy req.params = false) :
    handleRequest h store (.post hdrs body)
      = createErrorResponse ERROR_INVALID_PARAMS "Missing parameters for tools/call" req.id
          hdrs.mcpSessionId Option.none Option.none
    ∧ (handleRequest h store (.post hdrs body)).statusCode = 400 := by
  have hmain : handleRequest h store (.post hdrs body)
      = createErrorResponse ERROR_INVALID_PARAMS "Missing parameters for tools/call" req.id
          hdrs.mcpSessionId Option.none Option.none := by
    simp [handleRequest, hparse, handleHttpPost, hct, hmethod, hsid,
      handleToolsCall, hparams]
  exact ⟨hmain, by rw [hmain]; rfl⟩

/-- C10 witness: `tools/call` with empty `params` and a never-issued session
identifier still gets the missing-parameters error (computed over the empty
store, which holds no live session). -/
theorem C10_witness :
    handleRequest mathHandler emptyStore
        (.post ⟨Option.some CONTENT_TYPE_JSON, Option.some "never-issued"⟩
          (.obj (Option.some "2.0") (Option.some (.str "7")) (Option.some "tools/call")
            (Option.some (.obj []))))
      = createErrorResponse ERROR_INVALID_PARAMS "Missing parameters for tools/call"
          (Option.some (.str "7")) (Option.some "never-issued") Option.none Option.none :=
  (C10_empty_params_before_session mathHandler emptyStore
    ⟨Option.some CONTENT_TYPE_JSON, Option.some "never-issued"⟩
    (.obj (Option.some "2.0") (Option.some (.str "7")) (Option.some "tools/call")
      (Option.some (.obj [])))
    ⟨Option.some (.str "7"), .toolsCall, Option.some (.obj [])⟩
    rfl rfl rfl (by decide) rfl).1

/-- C6: when one or more declared parameters without a default are absent
from the supplied arguments, the tool call produces the single
`InvalidParams` error whose message lists exactly the missing names, joined
in declaration order, and the implementation (`run`) is never invoked — the
result is the same for every implementation. -/
theorem C6_missing_required (tf : ToolFunc) (kvs : List (String × PyVal))
    (args : List (String × PyVal)) (rid : Option RpcId) (sid : Option String)
    (hargs : kvs.lookup "arguments" = Option.some (.dict args))
    (hmiss : (missingRequired tf.params (args.map (·.1))).isEmpty = false) :
    invokeTool tf kvs rid sid
      = createErrorResponse ERROR_INVALID_PARAMS
          ("Missing required parameters: "
            ++ String.intercalate ", " (missingRequired tf.params (args.map (·.1))))
          rid sid Option.none Option.none
    ∧ missingRequired tf.params (args.map (·.1))
      = (tf.params.filter (fun p => ¬ p.hasDefault ∧ p.name ∉ args.map (·.1))).map Param.name := by
  refine ⟨?_, rfl⟩
  simp [invokeTool, hargs, validateToolArgsResp, validateToolArgs, hmiss, toolArgErrorResponse]

/-- C6 witness: the two-required-parameter `math` tool called with only `a`
supplied reports exactly the missing `b`. -/
theorem C6_witness :
    invokeTool mathFunc [("name", .str "math"), ("arguments", .dict [("a", .int 3)])]
        (Option.some (.str "5")) (Option.some "sess-1")
      = createErrorResponse ERROR_INVALID_PARAMS "Missing required parameters: b"
          (Option.some (.str "5")) (Option.some "sess-1") Option.none Option.none :=
  (C6_missing_required mathFunc [("name", .str "math"), ("arguments", .dict [("a", .int 3)])]
    [("a", .int 3)] (Option.some (.str "5")) (Option.some "sess-1") rfl (by decide)).1

/-- A successfully converted entry keeps its key. -/
theorem convertEntry_key (k : String) (v : PyVal) (hints : List (String × TypeHint))
    (kr : String × PyVal) (hok : convertEntry k v hints = .ok kr) : kr.1 = k := by
  unfold convertEntry at hok
  split at hok
  · cases hok; rfl
  · split at hok
    · cases hok; rfl
    · split at hok
      · cases hok; rfl
      · exact Except.noConfusion hok

/-- The per-argument conversion preserves the argument keys and their
order. -/
theorem convertAndValidateArgs_keys (args : List (String × PyVal))
    (hints : List (String × TypeHint)) (conv : List (String × PyVal))
    (hok : convertAndValidateArgs args hints = .ok conv) :
    conv.map (·.1) = args.map (·.1) := by
  induction args generalizing conv with
  | nil =>
    simp only [convertAndValidateArgs] at hok
    cases hok
    rfl
  | cons kv rest ih =>
    obtain ⟨k, v⟩ := kv
    simp only [convertAndValidateArgs] at hok
    split at hok
    · exact Except.noConfusion hok
    · rename_i kr he
      split at hok
      · rename_i c hc
        cases hok
        simp [convertEntry_key k v hints kr he, ih c hc]
      · exact Except.noConfusion hok

/-- The presence check succeeds exactly when every declared parameter without
a default is among the supplied keys. -/
theorem missingRequired_nil_iff (sig : List Param) (prov : List String) :
    missingRequired sig prov = [] ↔
      ∀ p ∈ sig, p.hasDefault = false → p.name ∈ prov := by
  unfold missingRequired
  rw [List.map_eq_nil_iff, List.filter_eq_nil_iff]
  constructor
  · intro h p hp hd
    by_contra hn
    exact h p hp (by simp [hd, hn])
  · intro h p hp
    simp only [Bool.not_eq_true, decide_eq_true_eq, not_and, not_not]
    intro hd
    by_contra hn
    exact hn (h p hp (by simpa using hd))

/-- C7: supplying extra keys that are not declared parameters of the tool, on
top of arguments that validate successfully, still validates successfully
with the identical converted mapping — the extra keys are silently dropped
and none of them reaches the converted result handed to the callable. -/
theorem C7_extra_keys_dropped (sig : List Param) (args extras conv : List (String × PyVal))
    (hextra : ∀ k ∈ extras.map (·.1), k ∉ sig.map Param.name)
    (hok : validateToolArgs sig args = .ok conv) :
    validateToolArgs sig (args ++ extras) = .ok conv
    ∧ ∀ k ∈ conv.map (·.1), k ∉ extras.map (·.1) := by
  simp only [validateToolArgs] at hok
  split at hok
  case isFalse => exact Except.noConfusion hok
  case isTrue hmiss =>
    rw [List.isEmpty_iff] at hmiss
    have hmiss2 : (missingRequired sig ((args ++ extras).map (·.1))).isEmpty = true := by
      rw [List.isEmpty_iff, missingRequired_nil_iff]
      intro p hp hd
      have := (missingRequired_nil_iff sig (args.map (·.1))).1 hmiss p hp hd
      simp only [List.map_append, List.mem_append]
      exact Or.inl this
    have hkept : (args ++ extras).filter (fun kv => kv.1 ∈ sig.map (·.name))
        = args.filter (fun kv => kv.1 ∈ sig.map (·.name)) := by
      rw [List.filter_append]
      have : extras.filter (fun kv => kv.1 ∈ sig.map (·.name)) = [] := by
        rw [List.filter_eq_nil_iff]
        intro kv hkv
        simpa using hextra kv.1 (List.mem_map_of_mem _ hkv)
      rw [this, List.append_nil]
    have hkeys : ∀ k ∈ conv.map (·.1), k ∈ sig.map Param.name := by
      split at hok
      case h_2 => exact Except.noConfusion hok
      case h_1 c hc =>
        cases hok
        intro k hk
        rw [convertAndValidateArgs_keys _ _ _ hc] at hk
        obtain ⟨kv, hkv, rfl⟩ := List.mem_map.1 hk
        have := List.of_mem_filter hkv
        simpa using this
    refine ⟨?_, fun k hk hkextras => hextra k hkextras (hkeys k hk)⟩
    simp only [validateToolArgs, hmiss2, if_true, hkept]
    exact hok

/-- C7 witness: calling the 2-parameter `math` signature with both required
keys plus an undeclared `zzz` succeeds and the converted mapping is exactly
the two declared keys. -/
theorem C7_witness :
    validateToolArgs mathSpec.params
        ([("a", .int 3), ("b", .int 4)] ++ [("zzz", .str "extra")])
      = .ok [("a", .int 3), ("b", .int 4)]
    ∧ ∀ k ∈ ([("a", PyVal.int 3), ("b", PyVal.int 4)] : List (String × PyVal)).map (·.1),
        k ∉ ([("zzz", PyVal.str "extra")] : List (String × PyVal)).map (·.1) :=
  (C7_extra_keys_dropped mathSpec.params [("a", .int 3), ("b", .int 4)]
    [("zzz", .str "extra")] [("a", .int 3), ("b", .int 4)]
    (by decide) rfl).imp id (fun h => h)

/-- C8: for a parameter declared `bool` and a supplied string, the converted
value is `true` for the case-insensitive literals true/yes/1/on, `false` for
false/no/0/off, and any other string produces the `InvalidParams`
cannot-convert-to-boolean error. -/
theorem C8_bool_string_coercion (pname s : String) (rid : Option RpcId)
    (sid : Option String) :
    ((pyLower s = "true" ∨ pyLower s = "yes" ∨ pyLower s = "1" ∨ pyLower s = "on") →
      validateToolArgsResp [⟨pname, Option.some (.prim .bool), false⟩] [(pname, .str s)] rid sid
        = .ok [(pname, .bool true)])
    ∧ ((pyLower s = "false" ∨ pyLower s = "no" ∨ pyLower s = "0" ∨ pyLower s = "off") →
      validateToolArgsResp [⟨pname, Option.some (.prim .bool), false⟩] [(pname, .str s)] rid sid
        = .ok [(pname, .bool false)])
    ∧ (¬ (pyLower s = "true" ∨ pyLower s = "yes" ∨ pyLower s = "1" ∨ pyLower s = "on") →
       ¬ (pyLower s = "false" ∨ pyLower s = "no" ∨ pyLower s = "0" ∨ pyLower s = "off") →
      validateToolArgsResp [⟨pname, Option.some (.prim .bool), false⟩] [(pname, .str s)] rid sid
        = .error (createErrorResponse ERROR_INVALID_PARAMS
            ("Invalid value for parameter \x27" ++ pname ++ "\x27: "
              ++ ("Cannot convert \x27" ++ s ++ "\x27 to boolean"))
            rid sid Option.none
            (Option.some (.dict [("expected", .str "boolean"), ("received", .str "str")])))) := by
  have hbase : ∀ r, convertArgValue (.str s) (.prim .bool) = r →
      validateToolArgsResp [⟨pname, Option.some (.prim .bool), false⟩] [(pname, .str s)] rid sid
        = (match r with
          | .ok w => .ok [(pname, w)]
          | .error e => .error (toolArgErrorResponse
              (.conv ⟨pname, e.message, e.expected, "str"⟩) rid sid)) := by
    intro r hr
    cases r with
    | ok w =>
      simp only [validateToolArgsResp, validateToolArgs, missingRequired]
      simp [convertAndValidateArgs, convertEntry, sigHints, hr, pyTypeName, List.lookup,
        isNoneVal]
    | error e =>
      simp only [validateToolArgsResp, validateToolArgs, missingRequired]
      simp [convertAndValidateArgs, convertEntry, sigHints, hr, pyTypeName, List.lookup,
        isNoneVal, toolArgErrorResponse]
  refine ⟨?_, ?_, ?_⟩
  · intro h
    have hc : convertArgValue (.str s) (.prim .bool) = .ok (.bool true) := by
      simp [convertArgValue, isinst, convertPrimitiveValue, h]
    exact hbase _ hc
  · intro hy
    have hne : ¬ (pyLower s = "true" ∨ pyLower s = "yes" ∨ pyLower s = "1" ∨ pyLower s = "on") := by
      rcases hy with h | h | h | h <;> simp [h]
    have hc : convertArgValue (.str s) (.prim .bool) = .ok (.bool false) := by
      simp [convertArgValue, isinst, convertPrimitiveValue, hne, hy]
    exact hbase _ hc
  · intro h1 h2
    have hc : convertArgValue (.str s) (.prim .bool)
        = .error ⟨"Cannot convert \x27" ++ s ++ "\x27 to boolean", "boolean"⟩ := by
      simp [convertArgValue, isinst, convertPrimitiveValue, h1, h2]
    exact hbase _ hc

/-- C8 witness: the mixed-case literal `True` converts to `true`, `No`
converts to `false`, and `not-a-bool` is the `InvalidParams` conversion
error. -/
theorem C8_witness :
    validateToolArgsResp [⟨"flag", Option.some (.prim .bool), false⟩] [("flag", .str "True")]
        Option.none Option.none = .ok [("flag", .bool true)]
    ∧ validateToolArgsResp [⟨"flag", Option.some (.prim .bool), false⟩] [("flag", .str "No")]
        Option.none Option.none = .ok [("flag", .bool false)]
    ∧ validateToolArgsResp [⟨"flag", Option.some (.prim .bool), false⟩]
        [("flag", .str "not-a-bool")] Option.none Option.none
      = .error (createErrorResponse ERROR_INVALID_PARAMS
          ("Invalid value for parameter \x27flag\x27: "
            ++ ("Cannot convert \x27not-a-bool\x27 to boolean"))
          Option.none Option.none Option.none
          (Option.some (.dict [("expected", .str "boolean"), ("received", .str "str")]))) :=
  ⟨(C8_bool_string_coercion "flag" "True" Option.none Option.none).1 (by decide),
   (C8_bool_string_coercion "flag" "No" Option.none Option.none).2.1 (by decide),
   (C8_bool_string_coercion "flag" "not-a-bool" Option.none Option.none).2.2
     (by decide) (by decide)⟩

/-- A successful constructor-style primitive conversion produces a value that
is an instance of the target type. -/
theorem convertPrimitiveValue_isinst (v : PyVal) (p : PrimType) (w : PyVal)
    (hok : convertPrimitiveValue v p = .ok w) : isinst w p = true := by
  cases p <;> cases v <;>
    simp only [convertPrimitiveValue, pyPrimCall, pyIntCall, pyFloatCall] at hok <;>
    first
    | exact Except.noConfusion hok
    | (cases hok; rfl)
    | (rename_i s
       cases hs : pyIntOfStr s with
       | some n => simp only [hs] at hok; cases hok; rfl
       | none => simp [hs] at hok)
    | (rename_i s
       cases hs : pyFloatOfStr s with
       | some n => simp only [hs] at hok; cases hok; rfl
       | none => simp [hs] at hok)
    | (split at hok
       · cases hok; rfl
       · split at hok
         · cases hok; rfl
         · exact Except.noConfusion hok)

/-- Converting a value once for a primitive hint makes a second conversion
the identity (the already-converted value is an instance of the declared type
and passes straight through). -/
theorem convertArgValue_prim_idem (v w : PyVal) (p : PrimType)
    (hok : convertArgValue v (.prim p) = .ok w) :
    convertArgValue w (.prim p) = .ok w := by
  by_cases hv : isinst v p = true
  · simp only [convertArgValue, hv, if_true] at hok
    cases hok
    simp [convertArgValue, hv]
  · have hv2 : isinst v p = false := by simpa using hv
    simp only [convertArgValue, hv2, Bool.false_eq_true, if_false] at hok
    have hw := convertPrimitiveValue_isinst v p w hok
    simp [convertArgValue, hw]

/-- Under all-primitive hints, a successfully converted entry converts to
itself on a second pass. -/
theorem convertEntry_idem (hints : List (String × TypeHint))
    (hprim : ∀ k t, hints.lookup k = Option.some t → ∃ q, t = TypeHint.prim q)
    (k : String) (v : PyVal) (kr : String × PyVal)
    (he : convertEntry k v hints = .ok kr) :
    convertEntry kr.1 kr.2 hints = .ok kr := by
  unfold convertEntry at he ⊢
  cases hl : hints.lookup k with
  | none =>
    rw [hl] at he
    cases he
    rw [hl]
  | some t =>
    rw [hl] at he
    obtain ⟨q, rfl⟩ := hprim k t hl
    by_cases hnv : isNoneVal v = true
    · simp only [hnv, if_true] at he
      cases he
      simp [hl, isNoneVal]
    · have hnv2 : isNoneVal v = false := by simpa using hnv
      simp only [hnv2, Bool.false_eq_true, if_false] at he
      cases hr : convertArgValue v (.prim q) with
      | ok r =>
        simp only [hr] at he
        cases he
        by_cases hrn : isNoneVal r = true
        · have hr0 : r = .none := by
            cases r <;> simp [isNoneVal] at hrn ⊢
          subst hr0
          simp [hl, isNoneVal]
        · have hrn2 : isNoneVal r = false := by simpa using hrn
          simp [hl, hrn2, convertArgValue_prim_idem _ _ _ hr]
      | error e => simp [hr] at he

/-- Hints coming from an all-primitive signature are primitive. -/
theorem sigHints_lookup_prim (sig : List Param)
    (hprim : ∀ p ∈ sig, ∀ t, p.hint = Option.some t → ∃ q, t = TypeHint.prim q)
    (k : String) (t : TypeHint) (hl : (sigHints sig).lookup k = Option.some t) :
    ∃ q, t = TypeHint.prim q := by
  induction sig with
  | nil => simp [sigHints] at hl
  | cons p ps ih =>
    cases hh : p.hint with
    | none =>
      simp only [sigHints, List.filterMap_cons, hh, Option.map_none'] at hl
      exact ih (fun p2 hp2 => hprim p2 (List.mem_cons_of_mem _ hp2)) hl
    | some t0 =>
      simp only [sigHints, List.filterMap_cons, hh, Option.map_some'] at hl
      simp only [List.lookup] at hl
      cases hk : (k == p.name) with
      | true =>
        rw [hk] at hl
        cases hl
        exact hprim p (List.mem_cons_self p ps) t hh
      | false =>
        rw [hk] at hl
        exact ih (fun p2 hp2 => hprim p2 (List.mem_cons_of_mem _ hp2)) hl

/-- Under all-primitive hints, a converted argument list converts to itself. -/
theorem convertAndValidateArgs_idem (hints : List (String × TypeHint))
    (hprim : ∀ k t, hints.lookup k = Option.some t → ∃ q, t = TypeHint.prim q)
    (args conv : List (String × PyVal))
    (hok : convertAndValidateArgs args hints = .ok conv) :
    convertAndValidateArgs conv hints = .ok conv := by
  induction args generalizing conv with
  | nil =>
    simp only [convertAndValidateArgs] at hok
    cases hok
    rfl
  | cons kv rest ih =>
    obtain ⟨k, v⟩ := kv
    simp only [convertAndValidateArgs] at hok
    split at hok
    · exact Except.noConfusion hok
    · rename_i kr he
      split at hok
      · rename_i c hc
        cases hok
        obtain ⟨k1, w⟩ := kr
        have he2 := convertEntry_idem hints hprim k v (k1, w) he
        simp only [convertAndValidateArgs, he2, ih c hc]
      · exact Except.noConfusion hok

/-- C9: for an all-primitive signature (each hint one of int, float, bool,
str), a successful validate-and-convert is idempotent: running it again on
the converted mapping returns that mapping unchanged. -/
theorem C9_coercion_idempotent (sig : List Param) (args conv : List (String × PyVal))
    (hprim : ∀ p ∈ sig, ∀ t, p.hint = Option.some t → ∃ q, t = TypeHint.prim q)
    (hok : validateToolArgs sig args = .ok conv) :
    validateToolArgs sig conv = .ok conv := by
  simp only [validateToolArgs] at hok
  split at hok
  case isFalse => exact Except.noConfusion hok
  case isTrue hmiss =>
    rw [List.isEmpty_iff] at hmiss
    split at hok
    case h_2 => exact Except.noConfusion hok
    case h_1 c hc =>
      cases hok
      have hkeys : conv.map (·.1)
          = (args.filter (fun kv => kv.1 ∈ sig.map (·.name))).map (·.1) :=
        convertAndValidateArgs_keys _ _ _ hc
      have hconvnames : ∀ x ∈ conv.map (·.1), x ∈ sig.map (·.name) := by
        intro x hx
        rw [hkeys] at hx
        obtain ⟨kv, hkv, rfl⟩ := List.mem_map.1 hx
        have := List.of_mem_filter hkv
        simpa using this
      have hm2 : (missingRequired sig (conv.map (·.1))).isEmpty = true := by
        rw [List.isEmpty_iff, missingRequired_nil_iff]
        intro p hp hd
        have hpin := (missingRequired_nil_iff sig (args.map (·.1))).1 hmiss p hp hd
        rw [hkeys]
        obtain ⟨kv, hkv, hkvname⟩ := List.mem_map.1 hpin
        have hname : kv.1 ∈ sig.map (·.name) := by
          rw [hkvname]
          exact List.mem_map.2 ⟨p, hp, rfl⟩
        exact List.mem_map.2 ⟨kv, List.mem_filter.2 ⟨hkv, by simpa using hname⟩, hkvname⟩
      have hfilter : conv.filter (fun kv => kv.1 ∈ sig.map (·.name)) = conv := by
        rw [List.filter_eq_self]
        intro kv hkv
        simpa using hconvnames kv.1 (List.mem_map_of_mem _ hkv)
      have hidem := convertAndValidateArgs_idem (sigHints sig)
        (sigHints_lookup_prim sig hprim) _ conv hc
      simp only [validateToolArgs, hm2, if_true, hfilter, hidem]

/-- C9 witness: the string `yes` converts to `true` for a boolean parameter,
and a second pass over the converted mapping is the identity. -/
theorem C9_witness :
    validateToolArgs [⟨"flag", Option.some (.prim .bool), false⟩] [("flag", .bool true)]
      = .ok [("flag", .bool true)] :=
  C9_coercion_idempotent [⟨"flag", Option.some (.prim .bool), false⟩]
    [("flag", .str "yes")] [("flag", .bool true)]
    (by
      intro p hp t ht
      simp only [List.mem_singleton] at hp
      subst hp
      cases ht
      exact ⟨.bool, rfl⟩)
    (by rfl)

end MCPCookbook
